import Mathlib

/-!
Verification of the waitlist backend (schema bootstrapper, signup write-path,
listing and startup probe) against its natural-language specification.

The repository ships two variants of the HTTP server (files `part_000` and
`part_001`) and two variants of `database.js` (variant A: the bootstrapper
returns `false` on a creation error; variant B: it exits the process).
Each JavaScript function is embedded as a pure Lean function; database
queries act on an explicit `DBState`, and query failures (connectivity
faults, concurrent inserts between the duplicate pre-check and the INSERT)
are injected through an explicit `Faults` record.
-/

/-- One row of `waitlist_users`. -/
structure WaitlistUser where
  id : Nat
  name : String
  email : String
  phone : String
  gender : String
  age : String
  createdAt : Nat
  ipAddress : String
  userAgent : Option String
deriving DecidableEq, Repr

/-- One row of `waitlist_analytics`. -/
structure AnalyticsRow where
  id : Nat
  totalSignups : Nat
  lastUpdated : Nat
deriving DecidableEq, Repr

/-- The relational store: table/index existence flags plus row contents. -/
structure DBState where
  usersTable : Bool
  analyticsTable : Bool
  emailIndex : Bool
  createdAtIndex : Bool
  users : List WaitlistUser
  analyticsRows : List AnalyticsRow
  nextId : Nat
  nextAnalyticsId : Nat
deriving DecidableEq, Repr

/-- A store with no tables and no rows, as on first boot. -/
def emptyDB : DBState :=
  ⟨false, false, false, false, [], [], 1, 1⟩

/-- An incoming JSON body for `POST /api/signup` plus request metadata.
`none` models an absent (or JSON `null`) field. -/
structure SignupRequest where
  name : Option String
  email : Option String
  phone : Option String
  gender : Option String
  age : Option String
  forwardedFor : Option String
  reqIp : String
  userAgent : Option String
deriving DecidableEq, Repr

/-- The JSON response of a handler: HTTP status, the `error` field when
present, and the `userId` field when present. -/
structure Response where
  status : Nat
  errMsg : Option String
  userId : Option Nat
deriving DecidableEq, Repr

/-- Result of one signup request: the response, the store afterwards, and
how many SQL statements the handler issued. -/
structure Outcome where
  resp : Response
  db : DBState
  queriesRun : Nat
deriving DecidableEq, Repr

/-- Injected failures for one signup request. `racedRows` are rows committed
by concurrent requests between the duplicate pre-check and the INSERT;
`insertFail` / `updateFail` / `selectFail` are connectivity-style faults
(error objects whose `code` is not `23505`). -/
structure Faults where
  selectFail : Bool
  racedRows : List WaitlistUser
  insertFail : Bool
  updateFail : Bool
deriving DecidableEq, Repr

/-- A fault-free run: no connectivity errors and no concurrent writers. -/
def noFaults : Faults :=
  ⟨false, [], false, false⟩

/-- JavaScript truthiness test used by `if (!name || !email || !phone)`:
an absent field and the empty string are both falsy. -/
def falsy : Option String → Bool
  | none => true
  | some s => s.isEmpty

/-- JavaScript `value || defaultValue` on an optional string field, as in
`req.body.gender || 'prefer-not-to-say'`. -/
def orDefault (v : Option String) (d : String) : String :=
  match v with
  | none => d
  | some s => if s.isEmpty then d else s

/-- A character matched by the regex class `[^\s@]`. -/
def emailChar (c : Char) : Bool :=
  !c.isWhitespace && c != '@'

/-- The test of `part_001`'s email regex `^[^\s@]+@[^\s@]+\.[^\s@]+$`:
exactly one `@` (guaranteed because both character classes exclude `@`), a
nonempty local part, and a domain with an interior dot, no whitespace
anywhere. -/
def emailRegexTest (s : String) : Bool :=
  let cs := s.toList
  let lp := cs.takeWhile (fun c => c != '@')
  match cs.drop lp.length with
  | '@' :: dom =>
    !lp.isEmpty && lp.all emailChar &&
    !dom.isEmpty && dom.all emailChar &&
    ((dom.drop 1).dropLast.contains '.')
  | _ => false

/-- `req.headers['x-forwarded-for']?.split(',')[0] || req.ip`: everything
before the first comma of the forwarded-for header, else the socket
address. -/
def resolveIp (req : SignupRequest) : String :=
  match req.forwardedFor with
  | some s =>
    let first := String.mk (s.toList.takeWhile (fun c => c != ','))
    if first.isEmpty then req.reqIp else first
  | none => req.reqIp

/-- Bump every `waitlist_analytics` row, as the WHERE-less
`UPDATE waitlist_analytics SET total_signups = total_signups + 1,
last_updated = NOW()` does. -/
def bumpAnalytics (now : Nat) (rows : List AnalyticsRow) : List AnalyticsRow :=
  rows.map (fun a => ⟨a.id, a.totalSignups + 1, now⟩)

/-- The `POST /api/signup` handler of `part_001`: validation (presence then
regex), duplicate pre-check, INSERT (failing with code 23505 when the email
exists at insert time), counter UPDATE; the catch block maps code 23505 to
409 and everything else to a generic 500. -/
def signupB (req : SignupRequest) (now : Nat) (st : DBState) (f : Faults) : Outcome :=
  if falsy req.name || falsy req.email || falsy req.phone then
    ⟨⟨400, some "Name, email, and phone are required", none⟩, st, 0⟩
  else
    let email := req.email.getD ""
    if !emailRegexTest email then
      ⟨⟨400, some "Invalid email format", none⟩, st, 0⟩
    else if f.selectFail then
      ⟨⟨500, some "Server error. Please try again later.", none⟩, st, 1⟩
    else if (st.users.filter (fun u => u.email == email)).length > 0 then
      ⟨⟨409, some "This email is already registered", none⟩, st, 1⟩
    else
      let st1 : DBState := { st with users := st.users ++ f.racedRows }
      if f.insertFail then
        ⟨⟨500, some "Server error. Please try again later.", none⟩, st1, 2⟩
      else if st1.users.any (fun u => u.email == email) then
        ⟨⟨409, some "Email already registered", none⟩, st1, 2⟩
      else
        let newUser : WaitlistUser :=
          ⟨st1.nextId, req.name.getD "", email, req.phone.getD "",
            orDefault req.gender "prefer-not-to-say",
            orDefault req.age "not-specified",
            now, resolveIp req, some (orDefault req.userAgent "unknown")⟩
        let st2 : DBState :=
          { st1 with users := st1.users ++ [newUser], nextId := st1.nextId + 1 }
        if f.updateFail then
          ⟨⟨500, some "Server error. Please try again later.", none⟩, st2, 3⟩
        else
          ⟨⟨200, none, some newUser.id⟩,
            { st2 with analyticsRows := bumpAnalytics now st2.analyticsRows }, 3⟩

/-- The `POST /api/signup` handler of `part_000`: presence validation only
(no email-format check), duplicate pre-check, INSERT, counter UPDATE; its
catch block returns a generic 500 for every error, including a
uniqueness-constraint violation. -/
def signupA (req : SignupRequest) (now : Nat) (st : DBState) (f : Faults) : Outcome :=
  if falsy req.name || falsy req.email || falsy req.phone then
    ⟨⟨400, some "Missing fields", none⟩, st, 0⟩
  else
    let email := req.email.getD ""
    if f.selectFail then
      ⟨⟨500, some "Server error", none⟩, st, 1⟩
    else if (st.users.filter (fun u => u.email == email)).length > 0 then
      ⟨⟨409, some "Email already registered", none⟩, st, 1⟩
    else
      let st1 : DBState := { st with users := st.users ++ f.racedRows }
      if f.insertFail then
        ⟨⟨500, some "Server error", none⟩, st1, 2⟩
      else if st1.users.any (fun u => u.email == email) then
        ⟨⟨500, some "Server error", none⟩, st1, 2⟩
      else
        let newUser : WaitlistUser :=
          ⟨st1.nextId, req.name.getD "", email, req.phone.getD "",
            orDefault req.gender "prefer-not-to-say",
            orDefault req.age "not-specified",
            now, resolveIp req, req.userAgent⟩
        let st2 : DBState :=
          { st1 with users := st1.users ++ [newUser], nextId := st1.nextId + 1 }
        if f.updateFail then
          ⟨⟨500, some "Server error", none⟩, st2, 3⟩
        else
          ⟨⟨200, none, some newUser.id⟩,
            { st2 with analyticsRows := bumpAnalytics now st2.analyticsRows }, 3⟩

/-- Result of `initializeDatabase` in database.js variant B: either the
bootstrapped store, or a call to `process.exit` with the given code. -/
inductive InitResB where
  | ok (st : DBState)
  | exited (code : Nat)
deriving DecidableEq, Repr

/-- Set all table and index existence flags, preserving every row, as the
four `CREATE ... IF NOT EXISTS` statements do. -/
def createSchemaObjects (st : DBState) : DBState :=
  { st with usersTable := true, emailIndex := true,
            createdAtIndex := true, analyticsTable := true }

/-- `SELECT COUNT(*) FROM waitlist_analytics` followed by the conditional
`INSERT INTO waitlist_analytics (total_signups) VALUES (0)`. -/
def ensureAnalyticsRow (now : Nat) (st : DBState) : DBState :=
  if st.analyticsRows.length = 0 then
    { st with analyticsRows := [⟨st.nextAnalyticsId, 0, now⟩],
              nextAnalyticsId := st.nextAnalyticsId + 1 }
  else st

/-- `initializeDatabase` of database.js variant B: create tables, indexes
and the analytics row unconditionally; on an unrecoverable error
(`createFault`) it calls `process.exit(1)`. -/
def initializeDatabaseB (st : DBState) (createFault : Bool) (now : Nat) : InitResB :=
  if createFault then .exited 1
  else .ok (ensureAnalyticsRow now (createSchemaObjects st))

/-- `initializeDatabase` of database.js variant A: verify both tables with
`SELECT 1 ... LIMIT 1`; only when that fails run the creation path, and on
an unrecoverable creation error return `false` instead of exiting. -/
def initializeDatabaseA (st : DBState) (createFault : Bool) (now : Nat) : Bool × DBState :=
  if st.usersTable && st.analyticsTable then (true, st)
  else if createFault then (false, st)
  else (true, ensureAnalyticsRow now (createSchemaObjects st))

/-- What the process ends up doing after `startServer`: listening with a
given store state, or terminated with an exit code. -/
inductive ServerOutcome where
  | listening (st : DBState)
  | exited (code : Nat)
deriving DecidableEq, Repr

/-- `startServer` of `part_000` paired with the variant-A bootstrapper:
`await initializeDatabase()` whose boolean result is ignored, then
`app.listen`. -/
def startServer000A (st : DBState) (createFault : Bool) (now : Nat) : ServerOutcome :=
  let r := initializeDatabaseA st createFault now
  ServerOutcome.listening r.2

/-- `startServer` of `part_000` paired with the variant-B bootstrapper:
a failed bootstrap has already exited the process before `app.listen`. -/
def startServer000B (st : DBState) (createFault : Bool) (now : Nat) : ServerOutcome :=
  match initializeDatabaseB st createFault now with
  | .ok st1 => .listening st1
  | .exited c => .exited c

/-- The fixed spacing of the startup probe loop, in milliseconds. -/
def retryDelayMs : Nat := 5000

/-- Accounting of the `part_001` retry loop: the value of `retries` when the
loop ends, how many `testConnection` attempts ran, and how many 5-second
sleeps were taken. -/
structure ProbeOut where
  retriesLeft : Nat
  attempts : Nat
  delays : Nat
deriving DecidableEq, Repr

/-- The `while (retries > 0)` loop of `part_001.startServer`: attempt
`testConnection` (success of attempt `i` given by `conn i`), break on
success, otherwise decrement, sleep 5000 ms and loop. -/
def probeFrom (conn : Nat → Bool) (idx : Nat) : Nat → ProbeOut
  | 0 => ⟨0, 0, 0⟩
  | r + 1 =>
    if conn idx then ⟨r + 1, 1, 0⟩
    else
      let o := probeFrom conn (idx + 1) r
      ⟨o.retriesLeft, o.attempts + 1, o.delays + 1⟩

/-- `startServer` of `part_001` with the variant-B database module: probe
the store up to 5 times, `process.exit(1)` when `retries === 0`, then
bootstrap and listen. -/
def startServer001B (conn : Nat → Bool) (st : DBState) (createFault : Bool)
    (now : Nat) : ServerOutcome :=
  let p := probeFrom conn 0 5
  if p.retriesLeft = 0 then .exited 1
  else
    match initializeDatabaseB st createFault now with
    | .ok st1 => .listening st1
    | .exited c => .exited c

/-- Descending creation-time order: `a` comes before `b` under
`ORDER BY created_at DESC` when `b.createdAt ≤ a.createdAt`. -/
def moreRecent (a b : WaitlistUser) : Prop :=
  b.createdAt ≤ a.createdAt

instance : DecidableRel moreRecent :=
  fun a b => Nat.decLe b.createdAt a.createdAt

instance : IsTotal WaitlistUser moreRecent :=
  ⟨fun a b => Nat.le_total b.createdAt a.createdAt⟩

instance : IsTrans WaitlistUser moreRecent :=
  ⟨fun _ _ _ h1 h2 => Nat.le_trans h2 h1⟩

/-- `SELECT ... ORDER BY created_at DESC` over the users table. -/
def sortDesc (users : List WaitlistUser) : List WaitlistUser :=
  List.insertionSort moreRecent users

/-- The `GET /api/signups` handler of `part_000`: 403 in production,
otherwise every row, most recent first. -/
def listSignupsA (isProd : Bool) (st : DBState) : Response × List WaitlistUser :=
  if isProd then (⟨403, some "Forbidden", none⟩, [])
  else (⟨200, none, none⟩, sortDesc st.users)

/-- The `GET /api/signups` handler of `part_001`: 403 in production,
otherwise `ORDER BY created_at DESC LIMIT 100`. -/
def listSignupsB (isProd : Bool) (st : DBState) : Response × List WaitlistUser :=
  if isProd then (⟨403, some "Forbidden", none⟩, [])
  else (⟨200, none, none⟩, (sortDesc st.users).take 100)

/-- Run a list of signup requests through the `part_001` handler, fault
free, advancing the clock by one per request; returns the final store and
the number of successful (HTTP 200) responses. -/
def runSignupsB : List SignupRequest → Nat → DBState → DBState × Nat
  | [], _, st => (st, 0)
  | r :: rs, now, st =>
    let o := signupB r now st noFaults
    let p := runSignupsB rs (now + 1) o.db
    (p.1, (if o.resp.status = 200 then 1 else 0) + p.2)

/-- The sum of `total_signups` over all analytics rows (with the intended
single row, the counter itself). -/
def counterSum (st : DBState) : Nat :=
  (st.analyticsRows.map (fun a => a.totalSignups)).sum

/-- A well-formed signup body used as a concrete test vector. -/
def reqAna : SignupRequest :=
  ⟨some "Ana", some "ana@example.com", some "555-0100", none, none, none,
    "1.2.3.4", none⟩

/-- The same body with a malformed email. -/
def reqBadEmail : SignupRequest :=
  ⟨some "Ana", some "not-an-email", some "555-0100", none, none, none,
    "1.2.3.4", none⟩

/-- A stored row holding Ana's email. -/
def anaRow : WaitlistUser :=
  ⟨1, "Ana", "ana@example.com", "555-0100", "g", "a", 0, "ip", none⟩

/-- A store already holding Ana's row. -/
def stWithAna : DBState :=
  { emptyDB with users := [anaRow] }

/-- The race schedule: a concurrent request commits Ana's row between the
duplicate pre-check and the INSERT. -/
def raceFault : Faults :=
  { noFaults with racedRows := [anaRow] }

/-- The schedule in which only the counter UPDATE fails. -/
def updateFault : Faults :=
  { noFaults with updateFail := true }

/-- 101 stored rows with increasing creation times. -/
def manyUsers : List WaitlistUser :=
  (List.range 101).map (fun i => ⟨i, "u", "e@x.y", "p", "g", "a", i, "ip", none⟩)

/-- A store with 101 rows. -/
def st101 : DBState :=
  { emptyDB with users := manyUsers }

/-- C1 counterexample: at concrete inputs, the pre-check path of `part_001`
answers 409 with message "This email is already registered" while the
constraint-violation path answers 409 with the different message "Email
already registered", and `part_000` surfaces the constraint violation as a
generic 500 — refuting "same message" and "never a generic server error". -/
theorem c1_counterexample :
    (signupB reqAna 7 stWithAna noFaults).resp
      = ⟨409, some "This email is already registered", none⟩ ∧
    (signupB reqAna 7 emptyDB raceFault).resp
      = ⟨409, some "Email already registered", none⟩ ∧
    (signupA reqAna 7 emptyDB raceFault).resp
      = ⟨500, some "Server error", none⟩ ∧
    (some "This email is already registered" : Option String)
      ≠ some "Email already registered" := by
  decide

/-- C1 amended: for a valid signup body, a duplicate caught by the pre-check
yields 409 "This email is already registered"; a duplicate first visible at
INSERT time (a row committed between check and insert) yields 409 with the
different message "Email already registered" in `part_001`, and a generic
500 "Server error" in `part_000`. -/
theorem c1_amended_conflict_paths (st : DBState) (req : SignupRequest)
    (now : Nat) (raced : List WaitlistUser)
    (hn : falsy req.name = false) (he : falsy req.email = false)
    (hp : falsy req.phone = false)
    (hr : emailRegexTest (req.email.getD "") = true) :
    ((∃ u ∈ st.users, u.email = req.email.getD "") →
      signupB req now st noFaults =
        ⟨⟨409, some "This email is already registered", none⟩, st, 1⟩) ∧
    ((∀ u ∈ st.users, u.email ≠ req.email.getD "") →
      (∃ u ∈ raced, u.email = req.email.getD "") →
      (signupB req now st { noFaults with racedRows := raced }).resp =
        ⟨409, some "Email already registered", none⟩ ∧
      (signupA req now st { noFaults with racedRows := raced }).resp =
        ⟨500, some "Server error", none⟩) := by
  constructor
  · intro hd
    simp [signupB, noFaults, hn, he, hp, hr]
    intro hcon
    obtain ⟨u, hu, hue⟩ := hd
    exact absurd hue (hcon u hu)
  · intro h0 hdup
    have hfil : st.users.filter (fun u => u.email == req.email.getD "") = [] := by
      apply List.filter_eq_nil_iff.mpr
      intro a ha
      simpa using h0 a ha
    constructor
    · simp [signupB, noFaults, hn, he, hp, hr, hfil, hdup]
    · simp [signupA, noFaults, hn, he, hp, hr, hfil, hdup]

/-- C1 witness: the amended statement evaluated at the concrete vectors of
the counterexample. -/
theorem c1_amended_conflict_paths_witness :
    signupB reqAna 7 stWithAna noFaults =
      ⟨⟨409, some "This email is already registered", none⟩, stWithAna, 1⟩ ∧
    (signupB reqAna 7 emptyDB raceFault).resp =
      ⟨409, some "Email already registered", none⟩ ∧
    (signupA reqAna 7 emptyDB raceFault).resp =
      ⟨500, some "Server error", none⟩ := by
  have h1 := c1_amended_conflict_paths stWithAna reqAna 7 [anaRow]
    (by decide) (by decide) (by decide) (by decide)
  have h2 := c1_amended_conflict_paths emptyDB reqAna 7 [anaRow]
    (by decide) (by decide) (by decide) (by decide)
  have h3 := h2.2 (by decide) ⟨anaRow, by decide, by decide⟩
  exact ⟨h1.1 ⟨anaRow, by decide, by decide⟩, h3.1, h3.2⟩

/-- C2 counterexample: with the variant-A bootstrapper, a failed schema
creation (tables absent, creation faulting) returns `false`, `startServer`
of `part_000` ignores it, and the process starts listening anyway. -/
theorem c2_counterexample :
    (initializeDatabaseA emptyDB true 3).1 = false ∧
    startServer000A emptyDB true 3 = ServerOutcome.listening emptyDB := by
  decide

/-- C2 amended: with the variant-B bootstrapper an unrecoverable creation
error exits the process with code 1 before any listening, under either
server file; with the variant-A bootstrapper the error is reported as a
`false` return that `startServer` of `part_000` ignores, so the server
begins serving with an unverified schema. -/
theorem c2_amended_bootstrap_failure (st : DBState) (now : Nat)
    (conn : Nat → Bool) :
    startServer000B st true now = ServerOutcome.exited 1 ∧
    startServer001B conn st true now = ServerOutcome.exited 1 ∧
    (st.usersTable = false →
      (initializeDatabaseA st true now).1 = false ∧
      startServer000A st true now = ServerOutcome.listening st) := by
  refine ⟨rfl, ?_, ?_⟩
  · simp [startServer001B, initializeDatabaseB]
  · intro h
    constructor
    · simp [initializeDatabaseA, h]
    · simp [startServer000A, initializeDatabaseA, h]

/-- C2 witness: the amended statement at the concrete boot state. -/
theorem c2_amended_bootstrap_failure_witness :
    startServer000B emptyDB true 3 = ServerOutcome.exited 1 ∧
    startServer001B (fun _ => true) emptyDB true 3 = ServerOutcome.exited 1 ∧
    startServer000A emptyDB true 3 = ServerOutcome.listening emptyDB := by
  have h := c2_amended_bootstrap_failure emptyDB 3 (fun _ => true)
  exact ⟨h.1, h.2.1, (h.2.2 (by decide)).2⟩

/-- C3 counterexample: a request with a malformed email ("not-an-email")
but all required fields present is not rejected by `part_000`: it runs 3
SQL statements, answers 200 and creates a row. -/
theorem c3_counterexample :
    emailRegexTest "not-an-email" = false ∧
    (signupA reqBadEmail 7 emptyDB noFaults).resp.status = 200 ∧
    (signupA reqBadEmail 7 emptyDB noFaults).queriesRun = 3 ∧
    (signupA reqBadEmail 7 emptyDB noFaults).db.users.length = 1 := by
  decide

/-- C3 amended: in both handler variants a request with a missing or empty
`name`, `email` or `phone` gets a 400 with no database statement issued and
no store change; the email-pattern check exists only in `part_001`, where a
syntactically invalid email likewise gets a 400 with no database statement
— `part_000` performs no email-format validation at all. -/
theorem c3_amended_validation (req : SignupRequest) (now : Nat)
    (st : DBState) (f : Faults) :
    ((falsy req.name || falsy req.email || falsy req.phone) = true →
      signupA req now st f = ⟨⟨400, some "Missing fields", none⟩, st, 0⟩ ∧
      signupB req now st f =
        ⟨⟨400, some "Name, email, and phone are required", none⟩, st, 0⟩) ∧
    (falsy req.name = false → falsy req.email = false →
      falsy req.phone = false →
      emailRegexTest (req.email.getD "") = false →
      signupB req now st f = ⟨⟨400, some "Invalid email format", none⟩, st, 0⟩) := by
  constructor
  · intro h
    exact ⟨by simp [signupA, h], by simp [signupB, h]⟩
  · intro hn he hp hr
    simp [signupB, hn, he, hp, hr]

/-- C3 witness: the amended statement at a body with a missing email and at
a body with a malformed email. -/
theorem c3_amended_validation_witness :
    signupA { reqAna with email := none } 7 emptyDB noFaults =
      ⟨⟨400, some "Missing fields", none⟩, emptyDB, 0⟩ ∧
    signupB { reqAna with email := none } 7 emptyDB noFaults =
      ⟨⟨400, some "Name, email, and phone are required", none⟩, emptyDB, 0⟩ ∧
    signupB reqBadEmail 7 emptyDB noFaults =
      ⟨⟨400, some "Invalid email format", none⟩, emptyDB, 0⟩ := by
  have h1 := c3_amended_validation { reqAna with email := none } 7 emptyDB noFaults
  have h2 := c3_amended_validation reqBadEmail 7 emptyDB noFaults
  have h3 := h1.1 (by decide)
  exact ⟨h3.1, h3.2, h2.2 (by decide) (by decide) (by decide) (by decide)⟩

/-- C6 counterexample: in non-production mode on a store with 101 rows, the
`part_001` listing returns only 100 rows, so it does not return all
inserted rows. -/
theorem c6_counterexample :
    st101.users.length = 101 ∧
    (listSignupsB false st101).2.length = 100 := by
  decide

/-- C6 amended: in production mode both listing variants answer the fixed
403 Forbidden; otherwise the `part_000` listing returns every stored row in
descending creation-time order, while the `part_001` listing returns only
the first 100 rows of that order. -/
theorem c6_amended_listing (st : DBState) :
    (listSignupsA true st = (⟨403, some "Forbidden", none⟩, []) ∧
      listSignupsB true st = (⟨403, some "Forbidden", none⟩, [])) ∧
    ((listSignupsA false st).2.Perm st.users ∧
      List.Sorted moreRecent (listSignupsA false st).2) ∧
    ((listSignupsB false st).2 = (sortDesc st.users).take 100 ∧
      List.Sorted moreRecent (listSignupsB false st).2) := by
  refine ⟨⟨rfl, rfl⟩, ⟨?_, ?_⟩, rfl, ?_⟩
  · exact List.perm_insertionSort moreRecent st.users
  · exact List.sorted_insertionSort moreRecent st.users
  · exact List.Pairwise.sublist (List.take_sublist 100 (sortDesc st.users))
      (List.sorted_insertionSort moreRecent st.users)

/-- C4: a fresh bootstrap creates both tables, both indexes and exactly one
analytics row with totalSignups = 0 (in both database.js variants); a
second run on a store that already has the schema and its single analytics
row succeeds and leaves the store exactly as it was; and no fault-free run
ever drops or mutates existing user rows or existing analytics rows. -/
theorem c4_bootstrap_idempotent (now : Nat) (st : DBState) (fault : Bool) :
    (initializeDatabaseB emptyDB false now =
      .ok ⟨true, true, true, true, [], [⟨1, 0, now⟩], 1, 2⟩) ∧
    (initializeDatabaseA emptyDB false now =
      (true, ⟨true, true, true, true, [], [⟨1, 0, now⟩], 1, 2⟩)) ∧
    (st.usersTable = true → st.analyticsTable = true → st.emailIndex = true →
      st.createdAtIndex = true → st.analyticsRows.length = 1 →
      initializeDatabaseB st false now = .ok st) ∧
    (st.usersTable = true → st.analyticsTable = true →
      initializeDatabaseA st false now = (true, st)) ∧
    ((initializeDatabaseA st fault now).2.users = st.users) ∧
    (st.analyticsRows ≠ [] →
      (initializeDatabaseA st fault now).2.analyticsRows = st.analyticsRows) ∧
    (∀ st1, initializeDatabaseB st fault now = InitResB.ok st1 →
      st1.users = st.users ∧
      (st.analyticsRows ≠ [] → st1.analyticsRows = st.analyticsRows)) := by
  refine ⟨rfl, rfl, ?_, ?_, ?_, ?_, ?_⟩
  · intro h1 h2 h3 h4 h5
    cases st with
    | mk a b c d us ar ni na =>
      simp only at h1 h2 h3 h4 h5
      subst h1; subst h2; subst h3; subst h4
      simp [initializeDatabaseB, createSchemaObjects, ensureAnalyticsRow, h5]
  · intro h1 h2
    simp [initializeDatabaseA, h1, h2]
  · simp only [initializeDatabaseA]
    split_ifs <;> simp [createSchemaObjects, ensureAnalyticsRow] <;> split_ifs <;> rfl
  · intro hne
    simp only [initializeDatabaseA]
    split_ifs <;> simp_all [createSchemaObjects, ensureAnalyticsRow]
  · intro st1 h
    cases fault with
    | true => simp [initializeDatabaseB] at h
    | false =>
      simp only [initializeDatabaseB, if_neg] at h
      simp at h
      subst h
      constructor
      · simp [ensureAnalyticsRow, createSchemaObjects]
        split_ifs <;> rfl
      · intro hne
        simp_all [ensureAnalyticsRow, createSchemaObjects]

/-- C4 witness: a fresh bootstrap at time 3 and a second run on its result. -/
theorem c4_bootstrap_idempotent_witness :
    initializeDatabaseB emptyDB false 3 =
      .ok ⟨true, true, true, true, [], [⟨1, 0, 3⟩], 1, 2⟩ ∧
    initializeDatabaseB ⟨true, true, true, true, [], [⟨1, 0, 3⟩], 1, 2⟩ false 3 =
      .ok ⟨true, true, true, true, [], [⟨1, 0, 3⟩], 1, 2⟩ ∧
    initializeDatabaseA ⟨true, true, true, true, [], [⟨1, 0, 3⟩], 1, 2⟩ false 3 =
      (true, ⟨true, true, true, true, [], [⟨1, 0, 3⟩], 1, 2⟩) := by
  have h := c4_bootstrap_idempotent 3
    ⟨true, true, true, true, [], [⟨1, 0, 3⟩], 1, 2⟩ false
  exact ⟨h.1,
    h.2.2.1 (by decide) (by decide) (by decide) (by decide) (by decide),
    h.2.2.2.1 (by decide) (by decide)⟩

/-- Summing totalSignups over bumped rows adds the row count. -/
theorem bumpAnalytics_sum (now : Nat) (rows : List AnalyticsRow) :
    ((bumpAnalytics now rows).map (fun a => a.totalSignups)).sum =
      (rows.map (fun a => a.totalSignups)).sum + rows.length := by
  induction rows with
  | nil => rfl
  | cons a l ih => simp [bumpAnalytics] at ih ⊢; omega

/-- A fault-free `part_001` signup bumps every analytics row exactly when it
answers 200, and leaves them untouched otherwise. -/
theorem signupB_analytics (req : SignupRequest) (now : Nat) (st : DBState) :
    ((signupB req now st noFaults).resp.status = 200 →
      (signupB req now st noFaults).db.analyticsRows =
        bumpAnalytics now st.analyticsRows) ∧
    ((signupB req now st noFaults).resp.status ≠ 200 →
      (signupB req now st noFaults).db.analyticsRows = st.analyticsRows) := by
  simp only [signupB, noFaults]
  split_ifs <;> simp_all

/-- Same statement for the `part_000` signup handler. -/
theorem signupA_analytics (req : SignupRequest) (now : Nat) (st : DBState) :
    ((signupA req now st noFaults).resp.status = 200 →
      (signupA req now st noFaults).db.analyticsRows =
        bumpAnalytics now st.analyticsRows) ∧
    ((signupA req now st noFaults).resp.status ≠ 200 →
      (signupA req now st noFaults).db.analyticsRows = st.analyticsRows) := by
  simp only [signupA, noFaults]
  split_ifs <;> simp_all

/-- Running a batch of signups from a single-row analytics table keeps one
row and adds exactly the number of 200 responses to the counter sum. -/
theorem runSignupsB_counter (reqs : List SignupRequest) :
    ∀ t0 st, st.analyticsRows.length = 1 →
      (runSignupsB reqs t0 st).1.analyticsRows.length = 1 ∧
      counterSum (runSignupsB reqs t0 st).1 =
        counterSum st + (runSignupsB reqs t0 st).2 ∧
      (runSignupsB reqs t0 st).2 ≤ reqs.length := by
  induction reqs with
  | nil => intro t0 st h; simp [runSignupsB, h]
  | cons r rs ih =>
    intro t0 st h
    have hstep := signupB_analytics r t0 st
    have hlen : (signupB r t0 st noFaults).db.analyticsRows.length = 1 := by
      by_cases hs : (signupB r t0 st noFaults).resp.status = 200
      · simp [hstep.1 hs, bumpAnalytics, h]
      · simp [hstep.2 hs, h]
    have hsum : counterSum (signupB r t0 st noFaults).db =
        counterSum st +
          (if (signupB r t0 st noFaults).resp.status = 200 then 1 else 0) := by
      by_cases hs : (signupB r t0 st noFaults).resp.status = 200
      · simp [counterSum, hs, hstep.1 hs, bumpAnalytics_sum, h]
      · simp [counterSum, hs, hstep.2 hs]
    obtain ⟨ha1, ha2, ha3⟩ := ih (t0 + 1) (signupB r t0 st noFaults).db hlen
    simp only [runSignupsB, List.length_cons]
    refine ⟨ha1, ?_, ?_⟩ <;> split_ifs at hsum ⊢ <;> omega

/-- C5: every successful signup (in either handler variant) rewrites each
analytics row to totalSignups + 1 with lastUpdated set to the current time;
and from a single analytics row with counter 0, after any batch of requests
the counter equals exactly the number of successful signups. -/
theorem c5_counter_increment (req : SignupRequest) (reqs : List SignupRequest)
    (now t0 : Nat) (st st0 : DBState) :
    ((signupB req now st noFaults).resp.status = 200 →
      (signupB req now st noFaults).db.analyticsRows =
        st.analyticsRows.map (fun a => ⟨a.id, a.totalSignups + 1, now⟩)) ∧
    ((signupA req now st noFaults).resp.status = 200 →
      (signupA req now st noFaults).db.analyticsRows =
        st.analyticsRows.map (fun a => ⟨a.id, a.totalSignups + 1, now⟩)) ∧
    (st0.analyticsRows.length = 1 → counterSum st0 = 0 →
      counterSum (runSignupsB reqs t0 st0).1 = (runSignupsB reqs t0 st0).2 ∧
      (runSignupsB reqs t0 st0).2 ≤ reqs.length) := by
  refine ⟨(signupB_analytics req now st).1, (signupA_analytics req now st).1, ?_⟩
  intro h1 h0
  have h := runSignupsB_counter reqs t0 st0 h1
  exact ⟨by omega, h.2.2⟩

/-- C5 witness: one successful signup at time 7 bumps the counter 0 → 1 and
stamps lastUpdated 7; a two-request batch with a duplicate email yields
counter = number of successes. -/
theorem c5_counter_increment_witness :
    (signupB reqAna 7 ⟨false, false, false, false, [], [⟨1, 0, 0⟩], 1, 1⟩
        noFaults).db.analyticsRows = [⟨1, 1, 7⟩] ∧
    counterSum (runSignupsB [reqAna, reqAna] 5
        ⟨false, false, false, false, [], [⟨1, 0, 0⟩], 1, 1⟩).1 =
      (runSignupsB [reqAna, reqAna] 5
        ⟨false, false, false, false, [], [⟨1, 0, 0⟩], 1, 1⟩).2 := by
  have h := c5_counter_increment reqAna [reqAna, reqAna] 7 5
    ⟨false, false, false, false, [], [⟨1, 0, 0⟩], 1, 1⟩
    ⟨false, false, false, false, [], [⟨1, 0, 0⟩], 1, 1⟩
  exact ⟨h.1 (by decide), (h.2.2 (by decide) (by decide)).1⟩

/-- The probe loop makes at most as many attempts as it has retries. -/
theorem probeFrom_attempts_le (conn : Nat → Bool) :
    ∀ r idx, (probeFrom conn idx r).attempts ≤ r ∧
      (probeFrom conn idx r).delays ≤ r := by
  intro r
  induction r with
  | zero => intro idx; simp [probeFrom]
  | succ n ih =>
    intro idx
    by_cases h : conn idx
    · simp [probeFrom, h]
    · simp only [probeFrom, h]
      simp only [Bool.false_eq_true, if_false]
      have := ih (idx + 1)
      constructor <;> simp <;> omega

/-- When every attempt fails, the loop exhausts all retries: 5 attempts, a
sleep after each, and `retries` ends at 0. -/
theorem probeFrom_allFail (conn : Nat → Bool) :
    ∀ r idx, (∀ j, j < r → conn (idx + j) = false) →
      probeFrom conn idx r = ⟨0, r, r⟩ := by
  intro r
  induction r with
  | zero => intro idx h; rfl
  | succ n ih =>
    intro idx h
    have h0 : conn idx = false := by simpa using h 0 (Nat.succ_pos n)
    have hrest : ∀ j, j < n → conn (idx + 1 + j) = false := by
      intro j hj
      have := h (j + 1) (by omega)
      rwa [show idx + 1 + j = idx + (j + 1) by omega]
    simp [probeFrom, h0, ih (idx + 1) hrest]

/-- When the first success is attempt `k` (0-based), the loop stops right
there: `k + 1` attempts, `k` sleeps, `r - k` retries left. -/
theorem probeFrom_firstSuccess (conn : Nat → Bool) :
    ∀ k r idx, k < r → (∀ j, j < k → conn (idx + j) = false) →
      conn (idx + k) = true →
      probeFrom conn idx r = ⟨r - k, k + 1, k⟩ := by
  intro k
  induction k with
  | zero =>
    intro r idx hk hfail hs
    cases r with
    | zero => omega
    | succ n =>
      simp only [Nat.add_zero] at hs
      simp [probeFrom, hs]
  | succ m ih =>
    intro r idx hk hfail hs
    cases r with
    | zero => omega
    | succ n =>
      have h0 : conn idx = false := by simpa using hfail 0 (Nat.succ_pos m)
      have hrest : ∀ j, j < m → conn (idx + 1 + j) = false := by
        intro j hj
        have := hfail (j + 1) (by omega)
        rwa [show idx + 1 + j = idx + (j + 1) by omega]
      have hs1 : conn (idx + 1 + m) = true := by
        rwa [show idx + 1 + m = idx + (m + 1) by omega]
      have := ih n (idx + 1) (by omega) hrest hs1
      simp [probeFrom, h0, this]

/-- C7: the startup probe of `part_001` runs at most 5 connection attempts
with a fixed 5000 ms sleep after each failure; if every attempt fails the
loop ends with `retries = 0` and the process exits with code 1 before
listening; if attempt `k` (0-based, `k` < 5) is the first success, exactly
`k + 1` attempts and `k` sleeps happen and startup proceeds to bootstrap
and listen. -/
theorem c7_retry_probe (conn : Nat → Bool) (st : DBState) (now : Nat)
    (k : Nat) :
    retryDelayMs = 5000 ∧
    (probeFrom conn 0 5).attempts ≤ 5 ∧
    (probeFrom conn 0 5).delays ≤ 5 ∧
    ((∀ j, j < 5 → conn j = false) →
      probeFrom conn 0 5 = ⟨0, 5, 5⟩ ∧
      startServer001B conn st false now = ServerOutcome.exited 1) ∧
    (k < 5 → (∀ j, j < k → conn j = false) → conn k = true →
      probeFrom conn 0 5 = ⟨5 - k, k + 1, k⟩ ∧
      startServer001B conn st false now =
        ServerOutcome.listening (ensureAnalyticsRow now (createSchemaObjects st))) := by
  refine ⟨rfl, (probeFrom_attempts_le conn 5 0).1,
    (probeFrom_attempts_le conn 5 0).2, ?_, ?_⟩
  · intro h
    have hp := probeFrom_allFail conn 5 0 (by intro j hj; simpa using h j hj)
    refine ⟨hp, ?_⟩
    simp [startServer001B, hp]
  · intro hk hfail hs
    have hp := probeFrom_firstSuccess conn k 5 0 hk
      (by intro j hj; simpa using hfail j hj) (by simpa using hs)
    have hne : 5 - k ≠ 0 := by omega
    refine ⟨hp, ?_⟩
    simp [startServer001B, hp, initializeDatabaseB, hne]

/-- C7 witness: a store that never answers gives 5 attempts, 5 sleeps and
exit code 1; a store first reachable on the third attempt stops the loop
there and the server boots. -/
theorem c7_retry_probe_witness :
    probeFrom (fun _ => false) 0 5 = ⟨0, 5, 5⟩ ∧
    startServer001B (fun _ => false) emptyDB false 3 = ServerOutcome.exited 1 ∧
    probeFrom (fun i => i == 2) 0 5 = ⟨3, 3, 2⟩ ∧
    startServer001B (fun i => i == 2) emptyDB false 3 =
      ServerOutcome.listening (ensureAnalyticsRow 3 (createSchemaObjects emptyDB)) := by
  have h1 := c7_retry_probe (fun _ => false) emptyDB 3 0
  have h2 := c7_retry_probe (fun i => i == 2) emptyDB 3 2
  have ha := h1.2.2.2.1 (by intro j hj; rfl)
  have hb := h2.2.2.2.2 (by decide) (by intro j hj; interval_cases j <;> rfl)
    (by decide)
  exact ⟨ha.1, ha.2, hb.1, hb.2⟩

/-- Full outcome of a `part_001` signup whose validation passes and whose
email is fresh both at pre-check and at insert time: the row is inserted,
and the response is 200 unless the counter UPDATE faults, in which case a
generic 500 is returned with the row already committed. -/
theorem signupB_success (req : SignupRequest) (now : Nat) (st : DBState)
    (f : Faults)
    (hn : falsy req.name = false) (he : falsy req.email = false)
    (hp : falsy req.phone = false)
    (hr : emailRegexTest (req.email.getD "") = true)
    (hsel : f.selectFail = false) (hins : f.insertFail = false)
    (h0 : ∀ u ∈ st.users, u.email ≠ req.email.getD "")
    (h0r : ∀ u ∈ f.racedRows, u.email ≠ req.email.getD "") :
    (f.updateFail = false →
      signupB req now st f =
        ⟨⟨200, none, some st.nextId⟩,
          { st with
              users := st.users ++ (f.racedRows ++
                [⟨st.nextId, req.name.getD "", req.email.getD "",
                  req.phone.getD "", orDefault req.gender "prefer-not-to-say",
                  orDefault req.age "not-specified", now, resolveIp req,
                  some (orDefault req.userAgent "unknown")⟩]),
              nextId := st.nextId + 1,
              analyticsRows := bumpAnalytics now st.analyticsRows }, 3⟩) ∧
    (f.updateFail = true →
      signupB req now st f =
        ⟨⟨500, some "Server error. Please try again later.", none⟩,
          { st with
              users := st.users ++ (f.racedRows ++
                [⟨st.nextId, req.name.getD "", req.email.getD "",
                  req.phone.getD "", orDefault req.gender "prefer-not-to-say",
                  orDefault req.age "not-specified", now, resolveIp req,
                  some (orDefault req.userAgent "unknown")⟩]),
              nextId := st.nextId + 1 }, 3⟩) := by
  have hfil : st.users.filter (fun u => u.email == req.email.getD "") = [] := by
    apply List.filter_eq_nil_iff.mpr
    intro a ha
    simpa using h0 a ha
  have hany : ((st.users ++ f.racedRows).any
      (fun u => u.email == req.email.getD "")) = false := by
    rw [List.any_eq_false]
    intro u hu
    rcases List.mem_append.mp hu with h | h
    · simpa using h0 u h
    · simpa using h0r u h
  constructor <;> intro hupd <;>
    simp [signupB, hn, he, hp, hr, hsel, hins, hupd, hfil, hany]

/-- The same success-path computation for the `part_000` handler. -/
theorem signupA_success (req : SignupRequest) (now : Nat) (st : DBState)
    (f : Faults)
    (hn : falsy req.name = false) (he : falsy req.email = false)
    (hp : falsy req.phone = false)
    (hsel : f.selectFail = false) (hins : f.insertFail = false)
    (h0 : ∀ u ∈ st.users, u.email ≠ req.email.getD "")
    (h0r : ∀ u ∈ f.racedRows, u.email ≠ req.email.getD "") :
    (f.updateFail = false →
      signupA req now st f =
        ⟨⟨200, none, some st.nextId⟩,
          { st with
              users := st.users ++ (f.racedRows ++
                [⟨st.nextId, req.name.getD "", req.email.getD "",
                  req.phone.getD "", orDefault req.gender "prefer-not-to-say",
                  orDefault req.age "not-specified", now, resolveIp req,
                  req.userAgent⟩]),
              nextId := st.nextId + 1,
              analyticsRows := bumpAnalytics now st.analyticsRows }, 3⟩) ∧
    (f.updateFail = true →
      signupA req now st f =
        ⟨⟨500, some "Server error", none⟩,
          { st with
              users := st.users ++ (f.racedRows ++
                [⟨st.nextId, req.name.getD "", req.email.getD "",
                  req.phone.getD "", orDefault req.gender "prefer-not-to-say",
                  orDefault req.age "not-specified", now, resolveIp req,
                  req.userAgent⟩]),
              nextId := st.nextId + 1 }, 3⟩) := by
  have hfil : st.users.filter (fun u => u.email == req.email.getD "") = [] := by
    apply List.filter_eq_nil_iff.mpr
    intro a ha
    simpa using h0 a ha
  have hany : ((st.users ++ f.racedRows).any
      (fun u => u.email == req.email.getD "")) = false := by
    rw [List.any_eq_false]
    intro u hu
    rcases List.mem_append.mp hu with h | h
    · simpa using h0 u h
    · simpa using h0r u h
  constructor <;> intro hupd <;>
    simp [signupA, hn, he, hp, hsel, hins, hupd, hfil, hany]

/-- C8: the duplicate pre-check and the uniqueness constraint compare
emails as exact strings, so two valid signups whose emails differ only in
letter case (equal after lowercasing, unequal as strings) both succeed and
end up as two distinct stored rows, one per spelling. -/
theorem c8_case_sensitive_emails (st : DBState) (r1 r2 : SignupRequest)
    (now1 now2 : Nat) (e1 e2 : String)
    (he1 : r1.email = some e1) (he2 : r2.email = some e2)
    (hn1 : falsy r1.name = false) (hf1 : falsy r1.email = false)
    (hp1 : falsy r1.phone = false) (hr1 : emailRegexTest e1 = true)
    (hn2 : falsy r2.name = false) (hf2 : falsy r2.email = false)
    (hp2 : falsy r2.phone = false) (hr2 : emailRegexTest e2 = true)
    (hcase : e1.toList.map Char.toLower = e2.toList.map Char.toLower)
    (hne : e1 ≠ e2)
    (h01 : ∀ u ∈ st.users, u.email ≠ e1)
    (h02 : ∀ u ∈ st.users, u.email ≠ e2) :
    (signupB r1 now1 st noFaults).resp.status = 200 ∧
    (signupB r2 now2 (signupB r1 now1 st noFaults).db noFaults).resp.status
      = 200 ∧
    (signupB r2 now2 (signupB r1 now1 st noFaults).db noFaults).db.users.length
      = st.users.length + 2 ∧
    (∃ u ∈ (signupB r2 now2 (signupB r1 now1 st noFaults).db noFaults).db.users,
      u.email = e1) ∧
    (∃ u ∈ (signupB r2 now2 (signupB r1 now1 st noFaults).db noFaults).db.users,
      u.email = e2) := by
  have e1d : r1.email.getD "" = e1 := by rw [he1]; rfl
  have e2d : r2.email.getD "" = e2 := by rw [he2]; rfl
  have hb1 := (signupB_success r1 now1 st noFaults hn1 hf1 hp1
    (by rwa [e1d]) rfl rfl (by rw [e1d]; exact h01) (by simp [noFaults])).1 rfl
  rw [hb1]
  have h02' : ∀ u ∈ (st.users ++ (noFaults.racedRows ++
      [⟨st.nextId, r1.name.getD "", r1.email.getD "", r1.phone.getD "",
        orDefault r1.gender "prefer-not-to-say",
        orDefault r1.age "not-specified", now1, resolveIp r1,
        some (orDefault r1.userAgent "unknown")⟩])), u.email ≠ r2.email.getD "" := by
    intro u hu
    rw [e2d]
    rcases List.mem_append.mp hu with h | h
    · exact h02 u h
    · rcases List.mem_append.mp h with h' | h'
      · simp [noFaults] at h'
      · simp at h'
        subst h'
        simpa [e1d] using hne
  have hb2 := (signupB_success r2 now2
    { st with
        users := st.users ++ (noFaults.racedRows ++
          [⟨st.nextId, r1.name.getD "", r1.email.getD "", r1.phone.getD "",
            orDefault r1.gender "prefer-not-to-say",
            orDefault r1.age "not-specified", now1, resolveIp r1,
            some (orDefault r1.userAgent "unknown")⟩]),
        nextId := st.nextId + 1,
        analyticsRows := bumpAnalytics now1 st.analyticsRows } noFaults hn2 hf2
    hp2 (by rwa [e2d]) rfl rfl h02' (by simp [noFaults])).1 rfl
  rw [hb2]
  refine ⟨rfl, rfl, by simp [noFaults], ?_, ?_⟩
  · refine ⟨⟨st.nextId, r1.name.getD "", r1.email.getD "", r1.phone.getD "",
      orDefault r1.gender "prefer-not-to-say",
      orDefault r1.age "not-specified", now1, resolveIp r1,
      some (orDefault r1.userAgent "unknown")⟩, ?_, e1d⟩
    simp
  · refine ⟨⟨st.nextId + 1, r2.name.getD "", r2.email.getD "", r2.phone.getD "",
      orDefault r2.gender "prefer-not-to-say",
      orDefault r2.age "not-specified", now2, resolveIp r2,
      some (orDefault r2.userAgent "unknown")⟩, ?_, e2d⟩
    simp

/-- C9: an optional `gender`/`age` field that is absent or the empty string
is replaced by the sentinel ("prefer-not-to-say" / "not-specified"), a
non-empty value is stored as supplied, and a present-but-empty field is
indistinguishable from an omitted one: the handlers return identical
outcomes for the two request bodies, in both variants. -/
theorem c9_optional_defaults (req : SignupRequest) (now : Nat) (st : DBState) (f : Faults)
    (hn : falsy req.name = false) (he : falsy req.email = false)
    (hp : falsy req.phone = false)
    (hr : emailRegexTest (req.email.getD "") = true)
    (hsel : f.selectFail = false) (hins : f.insertFail = false)
    (hupd : f.updateFail = false)
    (h0 : ∀ u ∈ st.users, u.email ≠ req.email.getD "")
    (h0r : ∀ u ∈ f.racedRows, u.email ≠ req.email.getD "") :
    (∀ s dflt : String, ¬s.isEmpty → orDefault (some s) dflt = s) ∧
    (∀ dflt : String, orDefault none dflt = dflt) ∧
    (∀ dflt : String, orDefault (some "") dflt = dflt) ∧
    (signupB { req with gender := some "" } now st f =
      signupB { req with gender := none } now st f) ∧
    (signupB { req with age := some "" } now st f =
      signupB { req with age := none } now st f) ∧
    (signupA { req with gender := some "" } now st f =
      signupA { req with gender := none } now st f) ∧
    (signupA { req with age := some "" } now st f =
      signupA { req with age := none } now st f) ∧
    (∃ w, (signupB req now st f).db.users = st.users ++ (f.racedRows ++ [w]) ∧
      w.gender = orDefault req.gender "prefer-not-to-say" ∧
      w.age = orDefault req.age "not-specified") ∧
    (∃ w, (signupA req now st f).db.users = st.users ++ (f.racedRows ++ [w]) ∧
      w.gender = orDefault req.gender "prefer-not-to-say" ∧
      w.age = orDefault req.age "not-specified") := by
  refine ⟨?_, fun _ => rfl, fun _ => rfl, rfl, rfl, rfl, rfl, ?_, ?_⟩
  · intro s dflt hs
    simp [orDefault, hs]
  · have h := (signupB_success req now st f hn he hp hr hsel hins h0 h0r).1 hupd
    rw [h]
    exact ⟨_, rfl, rfl, rfl⟩
  · have h := (signupA_success req now st f hn he hp hsel hins h0 h0r).1 hupd
    rw [h]
    exact ⟨_, rfl, rfl, rfl⟩

/-- C10: when the INSERT succeeds but the counter UPDATE fails, both
handler variants answer a generic 500 even though the user row is already
committed and the analytics counter was not incremented — signup is not
atomic on error. -/
theorem c10_non_atomic_signup (req : SignupRequest) (now : Nat) (st : DBState)
    (hn : falsy req.name = false) (he : falsy req.email = false)
    (hp : falsy req.phone = false)
    (hr : emailRegexTest (req.email.getD "") = true)
    (h0 : ∀ u ∈ st.users, u.email ≠ req.email.getD "") :
    (signupB req now st updateFault).resp =
      ⟨500, some "Server error. Please try again later.", none⟩ ∧
    (signupB req now st updateFault).db.users.length = st.users.length + 1 ∧
    (∃ u ∈ (signupB req now st updateFault).db.users,
      u.email = req.email.getD "") ∧
    (signupB req now st updateFault).db.analyticsRows = st.analyticsRows ∧
    (signupA req now st updateFault).resp = ⟨500, some "Server error", none⟩ ∧
    (signupA req now st updateFault).db.users.length = st.users.length + 1 ∧
    (signupA req now st updateFault).db.analyticsRows = st.analyticsRows := by
  have h0r : ∀ u ∈ updateFault.racedRows, u.email ≠ req.email.getD "" := by
    simp [updateFault, noFaults]
  have hB := (signupB_success req now st updateFault hn he hp hr rfl rfl
    h0 h0r).2 rfl
  have hA := (signupA_success req now st updateFault hn he hp rfl rfl
    h0 h0r).2 rfl
  rw [hB, hA]
  refine ⟨rfl, by simp [updateFault, noFaults], ?_, rfl, rfl,
    by simp [updateFault, noFaults], rfl⟩
  exact ⟨⟨st.nextId, req.name.getD "", req.email.getD "", req.phone.getD "",
    orDefault req.gender "prefer-not-to-say",
    orDefault req.age "not-specified", now, resolveIp req,
    some (orDefault req.userAgent "unknown")⟩,
    by simp [updateFault, noFaults], rfl⟩

/-- C8 witness: "Ana@example.com" then "ana@example.com" both get 200 and
the store ends with two rows, one per spelling. -/
theorem c8_case_sensitive_emails_witness :
    (signupB { reqAna with email := some "Ana@example.com" } 5 emptyDB
      noFaults).resp.status = 200 ∧
    (signupB reqAna 6 (signupB { reqAna with email := some "Ana@example.com" }
      5 emptyDB noFaults).db noFaults).resp.status = 200 ∧
    (signupB reqAna 6 (signupB { reqAna with email := some "Ana@example.com" }
      5 emptyDB noFaults).db noFaults).db.users.length = 2 ∧
    (∃ u ∈ (signupB reqAna 6
        (signupB { reqAna with email := some "Ana@example.com" } 5 emptyDB
          noFaults).db noFaults).db.users,
      u.email = "Ana@example.com") ∧
    (∃ u ∈ (signupB reqAna 6
        (signupB { reqAna with email := some "Ana@example.com" } 5 emptyDB
          noFaults).db noFaults).db.users,
      u.email = "ana@example.com") := by
  have h := c8_case_sensitive_emails emptyDB
    { reqAna with email := some "Ana@example.com" } reqAna 5 6
    "Ana@example.com" "ana@example.com" rfl rfl
    (by decide) (by decide) (by decide) (by decide)
    (by decide) (by decide) (by decide) (by decide)
    (by decide) (by decide) (by decide) (by decide)
  exact h

/-- C9 witness: empty-string and omitted optional fields coincide, and the
stored row of a concrete signup carries the sentinels. -/
theorem c9_optional_defaults_witness :
    orDefault (some "") "prefer-not-to-say" = "prefer-not-to-say" ∧
    signupB { reqAna with gender := some "" } 7 emptyDB noFaults =
      signupB { reqAna with gender := none } 7 emptyDB noFaults ∧
    signupA { reqAna with age := some "" } 7 emptyDB noFaults =
      signupA { reqAna with age := none } 7 emptyDB noFaults ∧
    (∃ w, (signupB reqAna 7 emptyDB noFaults).db.users =
        emptyDB.users ++ (noFaults.racedRows ++ [w]) ∧
      w.gender = orDefault reqAna.gender "prefer-not-to-say" ∧
      w.age = orDefault reqAna.age "not-specified") := by
  have h := c9_optional_defaults reqAna 7 emptyDB noFaults
    (by decide) (by decide) (by decide) (by decide) rfl rfl rfl
    (by decide) (by decide)
  exact ⟨h.2.2.1 "prefer-not-to-say", h.2.2.2.1, h.2.2.2.2.2.2.1,
    h.2.2.2.2.2.2.2.1⟩

/-- C10 witness: a concrete signup with a failing counter UPDATE answers
500 yet leaves the inserted row behind and the counter untouched. -/
theorem c10_non_atomic_signup_witness :
    (signupB reqAna 7 emptyDB updateFault).resp =
      ⟨500, some "Server error. Please try again later.", none⟩ ∧
    (signupB reqAna 7 emptyDB updateFault).db.users.length = 1 ∧
    (signupB reqAna 7 emptyDB updateFault).db.analyticsRows =
      emptyDB.analyticsRows ∧
    (signupA reqAna 7 emptyDB updateFault).resp =
      ⟨500, some "Server error", none⟩ := by
  have h := c10_non_atomic_signup reqAna 7 emptyDB
    (by decide) (by decide) (by decide) (by decide) (by decide)
  exact ⟨h.1, h.2.1, h.2.2.2.1, h.2.2.2.2.1⟩
